import Mathlib

/-!
Verification of the Maritime swarm job-application runner (`swarm.py`).

The development shallowly embeds the pieces of the program that the claims
are about:

* the string utilities shared by the Python code and the injected page
  script (`norm`, lowercasing, substring tests — Python `in`, JS
  `String.includes`);
* the strict confirmation detector `check_strict_success` together with its
  marker tables (`STRICT_TEXT_MARKERS`, `STRICT_URL_MARKERS`, `COMPAT_MAP`);
* the self-heal store `self_heal` with its three candidate pools;
* the network route handler's abort predicate;
* `read_json` / `load_profile` defaulting;
* the in-page form filler (`setVal`, `fillProfile` of `INJECT_HELPER_JS`)
  over an explicit DOM-control model;
* the per-target worker's outcome state machine and the orchestrator
  `run_swarm` with its batching and summary counts.

Machine strings are modelled as Lean `String`s over their character lists;
only ASCII-relevant behaviour of `lower()` / `toLowerCase()` is modelled
(every marker and hint in the program is ASCII).
-/

/-- Lowercase a string character-wise, as Python `str.lower()` and JS
`String.prototype.toLowerCase` behave on the ASCII data this program uses. -/
def lowerStr (s : String) : String := ⟨s.data.map Char.toLower⟩

/-- Character-list prefix test. -/
def listPrefix : List Char → List Char → Bool
  | [], _ => true
  | _ :: _, [] => false
  | a :: as, b :: bs => a == b && listPrefix as bs

/-- Character-list infix test: the needle occurs contiguously in the hay. -/
def listInfix (needle : List Char) : List Char → Bool
  | [] => listPrefix needle []
  | c :: rest => listPrefix needle (c :: rest) || listInfix needle rest

/-- Substring test: Python `needle in hay` / JS `hay.includes(needle)`. -/
def containsSub (hay needle : String) : Bool := listInfix needle.data hay.data

/-- Suffix test: Python `hay.endswith(suffix)`. -/
def endsWithStr (hay suffix : String) : Bool := listPrefix suffix.data.reverse hay.data.reverse

/-- One step of collapsing whitespace runs: JS `replace(/\s+/g, ' ')`.
The flag records whether the previous character was part of a whitespace
run (already emitted as one space). -/
def collapseWsGo : Bool → List Char → List Char
  | _, [] => []
  | prevWs, c :: cs =>
    if c.isWhitespace then
      if prevWs then collapseWsGo true cs else ' ' :: collapseWsGo true cs
    else c :: collapseWsGo false cs

/-- JS `replace(/\s+/g, ' ')`: every maximal whitespace run becomes one space. -/
def collapseWs (s : String) : String := ⟨collapseWsGo false s.data⟩

/-- JS `String.prototype.trim` (strip whitespace from both ends). -/
def trimStr (s : String) : String :=
  ⟨((s.data.dropWhile Char.isWhitespace).reverse.dropWhile Char.isWhitespace).reverse⟩

/-- The injected helper's `norm`:
`String(v || '').toLowerCase().replace(/\s+/g, ' ').trim()`. -/
def normStr (v : String) : String := trimStr (collapseWs (lowerStr v))

/-- JS `Array.prototype.join(' ')`. -/
def joinSpace : List String → String
  | [] => ""
  | [s] => s
  | s :: rest => s ++ " " ++ joinSpace rest

/-! ## Strict confirmation markers (swarm.py lines 32-86) -/

/-- `STRICT_TEXT_MARKERS`: phrases taken to appear only on post-submit
confirmation pages. -/
def STRICT_TEXT_MARKERS : List String := [
  "thank you for applying",
  "thanks for applying",
  "your application has been submitted",
  "your application was submitted",
  "application was submitted successfully",
  "we have received your application",
  "we received your application",
  "application number",
  "application complete",
  "thank you for your application",
  "application was received",
  "application has been received",
  "your application was successfully submitted",
  "application submitted successfully",
  "your application has been received",
  "thank you for submitting",
  "thanks for submitting",
  "you have successfully applied",
  "application confirmation",
  "thank you for your interest in",
  "your submission has been received"
]

/-- `STRICT_URL_MARKERS`: URL fragments indicating a confirmation route. -/
def STRICT_URL_MARKERS : List String := [
  "thank-you",
  "thankyou",
  "application-submitted",
  "application-received",
  "application-complete",
  "apply-confirmation",
  "application-confirmation"
]

/-- `COMPAT_MAP`: strict markers grouped under compatibility keys. -/
def COMPAT_MAP : List (String × List String) := [
  ("thank you",
    ["thank you for applying", "thanks for applying",
     "thank you for your application", "thank you for submitting",
     "thank you for your interest in"]),
  ("application submitted",
    ["your application has been submitted",
     "your application was submitted",
     "application was submitted successfully",
     "application submitted successfully",
     "your application was successfully submitted"]),
  ("confirmation", ["application confirmation"]),
  ("application received",
    ["we have received your application", "we received your application",
     "application was received", "application has been received",
     "your application has been received", "your submission has been received"])
]

/-- The possible compat keys in Python `sorted` (code-point) order.
`check_strict_success` computes `sorted(compat_additions)` where
`compat_additions ⊆ \x7b the four COMPAT_MAP keys \x7d`; the sorted, deduplicated
result of any subset equals this fixed sorted list filtered by membership. -/
def COMPAT_KEYS_SORTED : List String :=
  ["application received", "application submitted", "confirmation", "thank you"]

/-- `sorted(compat_additions)` of `check_strict_success`: the compat keys whose
strict-marker group intersects the strict hits, plus "confirmation" when the
URL matched, in sorted order. -/
def compatAdditions (strict_hits : List String) (url_ok : Bool) : List String :=
  COMPAT_KEYS_SORTED.filter (fun k =>
    (url_ok && k == "confirmation")
    || ((COMPAT_MAP.lookup k).getD []).any (fun s => strict_hits.contains s))

/-- What `check_strict_success` computes before capturing artifacts:
verdict, examined text, strict hits, URL flag, and the proof's `text_hits`. -/
structure CheckResult where
  ok : Bool
  text : String
  strict_hits : List String
  url_ok : Bool
  text_hits : List String
  deriving Repr, DecidableEq

/-- `check_strict_success` (swarm.py 640-733), composed with the page-side
evidence sources it evaluates: `getVisibleText` lowercases the body text, the
modal scraper lowercases the modal/overlay text, Python concatenates them with
one space, lowercases the URL, filters `STRICT_TEXT_MARKERS + extra_markers`
by lowercased substring match against the combined text, matches
`STRICT_URL_MARKERS` against the URL, and sets
`ok = bool(strict_hits or url_ok)`; the proof's `text_hits` is
`strict_hits + sorted(compat_additions)`. Screenshot and forensic-file
side effects are not modelled. -/
def check_strict_success (body modal url : String) (extra_markers : List String) :
    CheckResult :=
  let text := lowerStr body ++ " " ++ lowerStr modal
  let u := lowerStr url
  let all_markers := STRICT_TEXT_MARKERS ++ extra_markers
  let strict_hits := all_markers.filter (fun m => containsSub text (lowerStr m))
  let url_ok := STRICT_URL_MARKERS.any (fun k => containsSub u k)
  let ok := !strict_hits.isEmpty || url_ok
  { ok := ok
    text := text
    strict_hits := strict_hits
    url_ok := url_ok
    text_hits := strict_hits ++ compatAdditions strict_hits url_ok }

/-- A non-empty filter result is exactly `any`. -/
theorem not_isEmpty_filter {α : Type} (p : α → Bool) (l : List α) :
    (!(l.filter p).isEmpty) = l.any p := by
  induction l with
  | nil => rfl
  | cons x xs ih =>
    by_cases h : p x = true
    · simp [List.filter_cons, List.any_cons, h]
    · simp only [Bool.not_eq_true] at h
      simp [List.filter_cons, List.any_cons, h, ih]

/-- C2: the Confirmation Detector's verdict is true if and only if some text
marker from the strict list unioned with the run-time extra markers occurs
(lowercased) as a substring of the combined lowercased body-plus-modal text,
or some URL marker occurs as a substring of the lowercased URL; either signal
alone suffices. -/
theorem check_strict_success_ok_iff (body modal url : String) (extra_markers : List String) :
    (check_strict_success body modal url extra_markers).ok = true ↔
      ((∃ m ∈ STRICT_TEXT_MARKERS ++ extra_markers,
          containsSub (lowerStr body ++ " " ++ lowerStr modal) (lowerStr m) = true)
        ∨ (∃ k ∈ STRICT_URL_MARKERS, containsSub (lowerStr url) k = true)) := by
  simp only [check_strict_success]
  rw [not_isEmpty_filter]
  simp only [Bool.or_eq_true, List.any_eq_true]

/-- C3 counterexample: on the page text "We have received your application."
with no URL match, the proof bundle's `text_hits` contains the derived compat
key "application received", which does not occur as a substring of the
examined combined page text. -/
theorem text_hits_entry_not_on_page :
    "application received" ∈
        (check_strict_success "We have received your application." ""
          "https://x.example/apply" []).text_hits
      ∧ containsSub
          (check_strict_success "We have received your application." ""
            "https://x.example/apply" []).text
          "application received" = false := by decide

/-- C3 amended: every entry of the forensic `strict_hits` list is an actually
matched phrase — its lowercase form occurs as a substring of the examined
combined page text — while the proof bundle's `text_hits` consists of those
strict hits plus derived compatibility keys (which need not occur on the
page). -/
theorem strict_hits_sound (body modal url : String) (extra_markers : List String) :
    (∀ m ∈ (check_strict_success body modal url extra_markers).strict_hits,
        containsSub (check_strict_success body modal url extra_markers).text
          (lowerStr m) = true)
    ∧ (∀ m ∈ (check_strict_success body modal url extra_markers).text_hits,
        m ∈ (check_strict_success body modal url extra_markers).strict_hits
          ∨ m ∈ COMPAT_KEYS_SORTED) := by
  constructor
  · intro m hm
    simp only [check_strict_success, List.mem_filter] at hm
    exact hm.2
  · intro m hm
    simp only [check_strict_success, List.mem_append] at hm
    rcases hm with h | h
    · left
      simpa [check_strict_success] using h
    · right
      exact List.mem_of_mem_filter h

/-- C7: on body text "We have received your application. Application Number:
4471." with a URL ending in "/apply", the verdict is CONFIRMED, the matched
markers include both "application number" and "we have received your
application", and the URL-match flag is false. -/
theorem confirmation_scenario_application_number :
    (check_strict_success "We have received your application. Application Number: 4471."
        "" "https://example.com/apply" []).ok = true
    ∧ "application number" ∈
        (check_strict_success "We have received your application. Application Number: 4471."
          "" "https://example.com/apply" []).strict_hits
    ∧ "we have received your application" ∈
        (check_strict_success "We have received your application. Application Number: 4471."
          "" "https://example.com/apply" []).strict_hits
    ∧ (check_strict_success "We have received your application. Application Number: 4471."
        "" "https://example.com/apply" []).url_ok = false := by decide

/-! ## Self-heal store (swarm.py 485-524) -/

/-- The runtime state persisted in `.state/runtime_state.json`. -/
structure RunState where
  heal_count : Int
  extra_apply_hints : List String
  extra_submit_hints : List String
  extra_success_markers : List String
  deriving Repr, DecidableEq

/-- `apply_pool` of `self_heal`. -/
def apply_pool : List String :=
  ["continue", "next", "proceed", "begin application", "start", "quick apply", "view details"]

/-- `submit_pool` of `self_heal`. -/
def submit_pool : List String :=
  ["confirm", "complete", "final submit", "send", "review", "done"]

/-- `success_pool` of `self_heal`. -/
def success_pool : List String :=
  ["thanks for applying", "application has been submitted",
   "we received your application", "your application has been received"]

/-- The failure indicator `self_heal` looks for in the (lowercased) log text:
`"incomplete" in text or "no_strict" in text`. -/
def failIndicator (text : String) : Bool :=
  containsSub text "incomplete" || containsSub text "no_strict"

/-- One `for h in pool: if h not in cur and cond: cur.append(h); break` loop of
`self_heal`: when `cond` holds, append the first pool candidate not already
present (if any). -/
def healAppend (cond : Bool) (pool cur : List String) : List String :=
  if cond then
    match pool.find? (fun h => !cur.contains h) with
    | some h => cur ++ [h]
    | none => cur
  else cur

/-- `self_heal` (swarm.py 496-524) as a function of the prior state and the
raw prior-log content (`""` when the log file does not exist); Python
lowercases the log before testing. The `apply` and `submit` loops test the
failure indicator; the `success` loop does not. The heal counter increments;
`save_state` persistence is outside the model. -/
def self_heal (state : RunState) (logText : String) : RunState :=
  let text := lowerStr logText
  { heal_count := state.heal_count + 1
    extra_apply_hints := healAppend (failIndicator text) apply_pool state.extra_apply_hints
    extra_submit_hints := healAppend (failIndicator text) submit_pool state.extra_submit_hints
    extra_success_markers := healAppend true success_pool state.extra_success_markers }

/-- C4 counterexample: with an empty prior log (no failure indicator at all),
one self-heal invocation still appends a phrase to the extra success-marker
pool, so a pool is appended to without any failure indicator in the log. -/
theorem self_heal_appends_without_failure_log :
    failIndicator (lowerStr "") = false
    ∧ (self_heal ⟨0, [], [], []⟩ "").extra_success_markers = ["thanks for applying"]
    ∧ (self_heal ⟨0, [], [], []⟩ "").extra_apply_hints = [] := by decide

/-- How one pool evolves in one `self_heal` invocation: unchanged when the
loop's condition is false; when the condition is true, either every candidate
is already present and the pool is unchanged, or the first absent candidate
(and nothing else) is appended. -/
def appendStep (cond : Bool) (pool cur out : List String) : Prop :=
  (cond = false ∧ out = cur)
  ∨ (cond = true ∧ pool.find? (fun h => !cur.contains h) = none ∧ out = cur)
  ∨ (cond = true ∧ ∃ h, pool.find? (fun h2 => !cur.contains h2) = some h
      ∧ h ∉ cur ∧ out = cur ++ [h])

/-- `healAppend` satisfies `appendStep`. -/
theorem healAppend_appendStep (cond : Bool) (pool cur : List String) :
    appendStep cond pool cur (healAppend cond pool cur) := by
  cases cond with
  | false => exact Or.inl ⟨rfl, rfl⟩
  | true =>
    have hred : healAppend true pool cur
        = (match pool.find? (fun h => !cur.contains h) with
           | some h => cur ++ [h]
           | none => cur) := rfl
    rcases hfind : pool.find? (fun h => !cur.contains h) with _ | h
    · exact Or.inr (Or.inl ⟨rfl, hfind, by rw [hred, hfind]⟩)
    · refine Or.inr (Or.inr ⟨rfl, h, hfind, ?_, by rw [hred, hfind]⟩)
      have := List.find?_some hfind
      simpa [List.contains, List.elem_eq_mem] using this

/-- C4 amended: one self-heal invocation appends to the extra apply-hint and
submit-hint pools only if the lowercased log contains a failure indicator
("incomplete" or "no_strict") — at most one phrase per pool, the first
candidate of that pool's fixed list not already present — while the extra
success-marker pool receives the first absent candidate unconditionally. -/
theorem self_heal_append_characterisation (s : RunState) (logText : String) :
    appendStep (failIndicator (lowerStr logText)) apply_pool
      s.extra_apply_hints (self_heal s logText).extra_apply_hints
    ∧ appendStep (failIndicator (lowerStr logText)) submit_pool
      s.extra_submit_hints (self_heal s logText).extra_submit_hints
    ∧ appendStep true success_pool
      s.extra_success_markers (self_heal s logText).extra_success_markers :=
  ⟨healAppend_appendStep _ _ _, healAppend_appendStep _ _ _, healAppend_appendStep _ _ _⟩

/-- Growth of one hint set across one invocation: the old list is a prefix of
the new one (so the set never shrinks), and anything appended is a single
phrase that was absent before the append (so no duplicate is introduced). -/
def HintGrowthStep (old new : List String) : Prop :=
  old <+: new ∧ (new = old ∨ ∃ h, h ∉ old ∧ new = old ++ [h])

/-- `healAppend` only grows its list, by at most one absent phrase. -/
theorem healAppend_growth (cond : Bool) (pool cur : List String) :
    HintGrowthStep cur (healAppend cond pool cur) := by
  rcases healAppend_appendStep cond pool cur with ⟨_, h⟩ | ⟨_, _, h⟩ | ⟨_, h, _, hnot, hout⟩
  · rw [h]; exact ⟨List.prefix_refl cur, Or.inl rfl⟩
  · rw [h]; exact ⟨List.prefix_refl cur, Or.inl rfl⟩
  · rw [hout]; exact ⟨⟨[h], rfl⟩, Or.inr ⟨h, hnot, rfl⟩⟩

/-- Unfolding `self_heal` on the apply-hint pool. -/
theorem self_heal_apply_eq (s : RunState) (t : String) :
    (self_heal s t).extra_apply_hints
      = healAppend (failIndicator (lowerStr t)) apply_pool s.extra_apply_hints := rfl

/-- Unfolding `self_heal` on the submit-hint pool. -/
theorem self_heal_submit_eq (s : RunState) (t : String) :
    (self_heal s t).extra_submit_hints
      = healAppend (failIndicator (lowerStr t)) submit_pool s.extra_submit_hints := rfl

/-- Unfolding `self_heal` on the success-marker pool. -/
theorem self_heal_success_eq (s : RunState) (t : String) :
    (self_heal s t).extra_success_markers
      = healAppend true success_pool s.extra_success_markers := rfl

/-- C5: across two consecutive self-heal invocations from any state, none of
the three hint sets ever shrinks (each stage is a prefix of the next), and no
invocation introduces a duplicate (whatever is appended was absent before). -/
theorem self_heal_monotone_and_dedup (s : RunState) (t1 t2 : String) :
    (HintGrowthStep s.extra_apply_hints (self_heal s t1).extra_apply_hints
      ∧ HintGrowthStep (self_heal s t1).extra_apply_hints
          (self_heal (self_heal s t1) t2).extra_apply_hints)
    ∧ (HintGrowthStep s.extra_submit_hints (self_heal s t1).extra_submit_hints
      ∧ HintGrowthStep (self_heal s t1).extra_submit_hints
          (self_heal (self_heal s t1) t2).extra_submit_hints)
    ∧ (HintGrowthStep s.extra_success_markers (self_heal s t1).extra_success_markers
      ∧ HintGrowthStep (self_heal s t1).extra_success_markers
          (self_heal (self_heal s t1) t2).extra_success_markers) := by
  rw [self_heal_apply_eq (self_heal s t1) t2, self_heal_apply_eq s t1,
    self_heal_submit_eq (self_heal s t1) t2, self_heal_submit_eq s t1,
    self_heal_success_eq (self_heal s t1) t2, self_heal_success_eq s t1]
  exact ⟨⟨healAppend_growth _ _ _, healAppend_growth _ _ _⟩,
    ⟨healAppend_growth _ _ _, healAppend_growth _ _ _⟩,
    ⟨healAppend_growth _ _ _, healAppend_growth _ _ _⟩⟩

/-! ## Network route handler (swarm.py 101-111, 759-773) -/

/-- `BLOCKED_RESOURCE_TYPES`. -/
def BLOCKED_RESOURCE_TYPES : List String := ["image", "media", "font"]

/-- `BLOCKED_EXTENSIONS`. -/
def BLOCKED_EXTENSIONS : List String :=
  [".png", ".jpg", ".jpeg", ".webp", ".gif", ".svg", ".ico",
   ".mp4", ".webm", ".mov", ".avi",
   ".woff", ".woff2", ".ttf", ".otf", ".eot"]

/-- `BLOCKED_DOMAINS`. -/
def BLOCKED_DOMAINS : List String :=
  ["google-analytics", "googletagmanager", "doubleclick",
   "facebook.net", "hotjar", "segment"]

/-- `route_handler` (swarm.py 759-771) as its abort predicate: lowercase the
URL; abort on blocked resource type, then on any blocked extension either as
a suffix or followed by "?" anywhere in the URL, then on any blocked domain
fragment; otherwise continue. -/
def route_aborts (resource_type url : String) : Bool :=
  let u := lowerStr url
  if BLOCKED_RESOURCE_TYPES.contains resource_type then true
  else if BLOCKED_EXTENSIONS.any (fun ext => endsWithStr u ext || containsSub u (ext ++ "?")) then true
  else if BLOCKED_DOMAINS.any (fun d => containsSub u d) then true
  else false

/-- Modelled from the claim's words (for comparison with the code, not taken
from it): abort iff the resource type is blocked, the URL ends in a blocked
extension, or the URL contains a blocked domain fragment. -/
def claimedRouteAborts (resource_type url : String) : Bool :=
  BLOCKED_RESOURCE_TYPES.contains resource_type
  || BLOCKED_EXTENSIONS.any (fun ext => endsWithStr (lowerStr url) ext)
  || BLOCKED_DOMAINS.any (fun d => containsSub (lowerStr url) d)

/-- C9 counterexample: an XHR request whose URL merely contains ".png?" (it
does not end in any blocked extension, and matches no tracker fragment) is
aborted by the code, though the claimed predicate allows it through. -/
theorem route_aborts_query_extension :
    route_aborts "xhr" "https://example.com/pic.png?v=1" = true
    ∧ claimedRouteAborts "xhr" "https://example.com/pic.png?v=1" = false := by decide

/-- An early-return chain of three boolean guards is their disjunction. -/
theorem if_chain3 (c1 c2 c3 : Bool) :
    (if c1 then true else if c2 then true else if c3 then true else false)
      = (c1 || c2 || c3) := by
  cases c1 <;> cases c2 <;> cases c3 <;> rfl

/-- C9 amended: the handler aborts iff the resource type is image, media or
font, or the lowercased URL ends in a blocked extension **or contains a
blocked extension immediately followed by "?"**, or the lowercased URL
contains a tracker/analytics domain fragment; every other request (in
particular style sheets) continues. -/
theorem route_aborts_iff (resource_type url : String) :
    route_aborts resource_type url = true ↔
      (resource_type ∈ BLOCKED_RESOURCE_TYPES
        ∨ (∃ ext ∈ BLOCKED_EXTENSIONS,
            endsWithStr (lowerStr url) ext = true
              ∨ containsSub (lowerStr url) (ext ++ "?") = true)
        ∨ (∃ d ∈ BLOCKED_DOMAINS, containsSub (lowerStr url) d = true)) := by
  simp only [route_aborts]
  rw [if_chain3]
  simp only [Bool.or_eq_true, List.any_eq_true, List.contains, List.elem_eq_mem,
    decide_eq_true_eq]
  rw [or_assoc]

/-! ## Profile loading (swarm.py 452-482) -/

/-- A JSON value, as far as `profile.json` contents go. -/
inductive JValue where
  | jstr : String → JValue
  | jnum : Int → JValue
  | jbool : Bool → JValue
  | jnull : JValue
  | jarr : List JValue → JValue
  | jobj : List (String × JValue) → JValue

/-- The outcome of trying to read and parse a JSON file: the file may be
missing (`path.exists()` false), unreadable (`read_text` raises), hold
invalid JSON (`json.loads` raises), or parse to a value. -/
inductive FsRead where
  | missing
  | ioError
  | badJson
  | ok : JValue → FsRead

/-- `read_json` (swarm.py 452-458): return the default when the file is
missing, and swallow every read/parse error into the default. -/
def read_json (r : FsRead) (default : JValue) : JValue :=
  match r with
  | .ok v => v
  | .missing => default
  | .ioError => default
  | .badJson => default

/-- The defaults `load_profile` installs via `setdefault`, in source order. -/
def PROFILE_DEFAULTS : List (String × JValue) := [
  ("first_name", .jstr "Elijah"),
  ("last_name", .jstr "Wallis"),
  ("email", .jstr "elijahcwallis@gmail.com"),
  ("phone", .jstr "985-991-4360"),
  ("address_line1", .jstr "3201 Wynwood Dr"),
  ("city", .jstr "Plano"),
  ("state", .jstr "TX"),
  ("zip", .jstr "75074"),
  ("resume_path", .jstr "./resume.pdf"),
  ("sea_days_note", .jstr "250 documented sea days with company letters attached."),
  ("eeo_defaults", .jobj [("race", .jstr "Black or African American"),
    ("veteran", .jstr "No"), ("disability", .jstr "No")])]

/-- Python `dict.setdefault`: insert only when the key is absent. -/
def setdefaultKV (fields : List (String × JValue)) (k : String) (v : JValue) :
    List (String × JValue) :=
  if (fields.lookup k).isSome then fields else fields ++ [(k, v)]

/-- `load_profile` (swarm.py 466-482): read the profile with default `\x7b\x7d`,
then `setdefault` every recognized key. A parsed non-object value would make
Python's `setdefault` raise — modelled as `none`. -/
def load_profile (r : FsRead) : Option (List (String × JValue)) :=
  match read_json r (.jobj []) with
  | .jobj fields => some (PROFILE_DEFAULTS.foldl (fun fs kv => setdefaultKV fs kv.1 kv.2) fields)
  | _ => none

/-- The recognized profile keys (the `setdefault` targets). -/
def RECOGNIZED_PROFILE_KEYS : List String :=
  ["first_name", "last_name", "email", "phone", "address_line1", "city", "state",
   "zip", "resume_path", "sea_days_note", "eeo_defaults"]

/-- Python truthiness of the default values: a string is non-empty, an object
has at least one field. -/
def isNonEmpty : JValue → Bool
  | .jstr s => !s.data.isEmpty
  | .jobj l => !l.isEmpty
  | .jarr l => !l.isEmpty
  | .jnull => false
  | .jnum _ => true
  | .jbool b => b

/-- C10: whenever the profile file is missing, unreadable or invalid JSON,
`load_profile` returns (without raising) a dictionary holding a non-empty
value for every recognized profile key, because `read_json` swallows the
error into the `\x7b\x7d` default and `setdefault` fills every key. -/
theorem load_profile_total_defaults (r : FsRead)
    (h : r = .missing ∨ r = .ioError ∨ r = .badJson) :
    ∃ fields, load_profile r = some fields
      ∧ ∀ k ∈ RECOGNIZED_PROFILE_KEYS,
          ∃ v, fields.lookup k = some v ∧ isNonEmpty v = true := by
  have hval : ∀ k ∈ RECOGNIZED_PROFILE_KEYS, ∃ v,
      (PROFILE_DEFAULTS.foldl (fun fs kv => setdefaultKV fs kv.1 kv.2)
        ([] : List (String × JValue))).lookup k = some v ∧ isNonEmpty v = true := by
    intro k hk
    fin_cases hk <;> exact ⟨_, rfl, rfl⟩
  rcases h with rfl | rfl | rfl <;> exact ⟨_, rfl, hval⟩

/-- C10 witness: the missing-file case, concretely. -/
theorem load_profile_total_defaults_witness :
    ∃ fields, load_profile .missing = some fields
      ∧ ∀ k ∈ RECOGNIZED_PROFILE_KEYS,
          ∃ v, fields.lookup k = some v ∧ isNonEmpty v = true :=
  load_profile_total_defaults .missing (Or.inl rfl)

/-! ## Per-target worker outcome (swarm.py 739-1548) -/

/-- What the worker observes on a page when it runs the Confirmation
Detector: the body innerText, the scraped modal/overlay text, and the page
URL. -/
structure PageObs where
  body : String
  modal : String
  url : String
  deriving Repr, DecidableEq

/-- One fill/submit cycle of the worker's phase 3: whether a CAPTCHA was
detected on the form page, and the page state at the post-submit
confirmation check. The fill, upload and submit interactions of the cycle do
not influence the outcome decision and are not modelled. -/
structure CycleObs where
  captcha : Bool
  obs : PageObs
  deriving Repr, DecidableEq

/-- How the outer `asyncio.wait_for` wrapper ended, when the flow did not run
to completion: a timeout, or an exception (whose rendered message the code
embeds in the detail string); in both cases the worker re-checks the page it
is left with. -/
inductive FlowInterrupt where
  | timeout : PageObs → FlowInterrupt
  | crashed : String → PageObs → FlowInterrupt
  deriving Repr, DecidableEq

/-- The observations one worker run makes, in program order: the phase-1
blocker probes (dead domain, CAPTCHA, SMS gate, login wall), the per-cycle
observations of phase 3 (the code runs exactly 4 cycles; the model allows any
number, which subsumes 4), the phase-4 final observation, and whether the
flow was interrupted. -/
structure FlowTrace where
  dead : Bool
  captcha : Bool
  sms : Bool
  login : Bool
  cycles : List CycleObs
  finalObs : PageObs
  interrupted : Option FlowInterrupt
  deriving Repr, DecidableEq

/-- One target: company name and entry URL. -/
structure Target where
  company : String
  url : String
  deriving Repr, DecidableEq

/-- The fields of the per-target result dict that the claims are about:
status, detail, the proof bundle's `text_hits` and `url_match`, and (from the
forensic record) the underlying strict hits of the deciding check (empty in
the branches whose proof bundle is built without a check). -/
structure Outcome where
  company : String
  url : String
  status : String
  detail : String
  text_hits : List String
  url_match : Bool
  strict_hits : List String
  deriving Repr, DecidableEq

/-- The proof bundle the worker builds in its BLOCKED branches:
`text_hits = []`, `url_match = False`. -/
def blockedOutcome (t : Target) (detail : String) : Outcome :=
  { company := t.company, url := t.url, status := "BLOCKED", detail := detail
    text_hits := [], url_match := false, strict_hits := [] }

/-- The COMPLETE outcome built from a confirming check. -/
def completeOutcome (t : Target) (detail : String) (chk : CheckResult) : Outcome :=
  { company := t.company, url := t.url, status := "COMPLETE", detail := detail
    text_hits := chk.text_hits, url_match := chk.url_ok, strict_hits := chk.strict_hits }

/-- Python `str(True)` / `str(False)`, for the f-string detail. -/
def pyBool (b : Bool) : String := if b then "True" else "False"

/-- The fill/submit loop of phase 3 (swarm.py 1048-1459) restricted to its
outcome decisions: each cycle first aborts to BLOCKED on an in-form CAPTCHA,
then (after the unmodelled fill/submit interactions) runs the strict check
and returns COMPLETE when it confirms; otherwise the loop continues. `none`
means the loop exhausted its cycles without deciding. -/
def runCycles (t : Target) (extra_markers : List String) :
    List CycleObs → Option Outcome
  | [] => none
  | c :: rest =>
    if c.captcha then some (blockedOutcome t "Blocked - External: captcha_on_form")
    else
      let chk := check_strict_success c.obs.body c.obs.modal c.obs.url extra_markers
      if chk.ok then some (completeOutcome t "strict_confirmation_verified" chk)
      else runCycles t extra_markers rest

/-- The worker's `flow()` (swarm.py 808-1484) restricted to its outcome
decisions: phase-1 blocker checks in program order, then the fill/submit
cycles, then the phase-4 final check deciding COMPLETE versus INCOMPLETE. -/
def flowOutcome (t : Target) (extra_markers : List String) (tr : FlowTrace) : Outcome :=
  if tr.dead then blockedOutcome t "Blocked - External: dead_domain"
  else if tr.captcha || tr.sms then
    blockedOutcome t ("Blocked - External: captcha=" ++ pyBool tr.captcha
      ++ ", sms=" ++ pyBool tr.sms)
  else if tr.login then blockedOutcome t "Blocked - External: login_required"
  else
    match runCycles t extra_markers tr.cycles with
    | some o => o
    | none =>
      let chk := check_strict_success tr.finalObs.body tr.finalObs.modal
        tr.finalObs.url extra_markers
      if chk.ok then completeOutcome t "strict_confirmation_verified" chk
      else
        { company := t.company, url := t.url, status := "INCOMPLETE"
          detail := "no_strict_confirmation", text_hits := chk.text_hits
          url_match := chk.url_ok, strict_hits := chk.strict_hits }

/-- One worker run (swarm.py 739-1548): the flow under `asyncio.wait_for`;
on a timeout or exception the handler re-runs the strict check on the page it
is left with and decides COMPLETE versus INCOMPLETE from that check alone,
overwriting whatever the interrupted flow had set. -/
def workerOutcome (t : Target) (extra_markers : List String) (tr : FlowTrace) : Outcome :=
  match tr.interrupted with
  | none => flowOutcome t extra_markers tr
  | some (.timeout obs) =>
    let chk := check_strict_success obs.body obs.modal obs.url extra_markers
    if chk.ok then completeOutcome t "timeout_with_strict_confirmation" chk
    else
      { company := t.company, url := t.url, status := "INCOMPLETE"
        detail := "timeout_120s_no_confirmation", text_hits := []
        url_match := false, strict_hits := [] }
  | some (.crashed msg obs) =>
    let chk := check_strict_success obs.body obs.modal obs.url extra_markers
    if chk.ok then completeOutcome t "post_navigation_strict_confirmation" chk
    else
      { company := t.company, url := t.url, status := "INCOMPLETE"
        detail := "exception:" ++ msg, text_hits := []
        url_match := false, strict_hits := [] }

/-- A confirming check has a strict hit or a URL match. -/
theorem check_ok_requires_hit (body modal url : String) (extra_markers : List String)
    (h : (check_strict_success body modal url extra_markers).ok = true) :
    (check_strict_success body modal url extra_markers).strict_hits ≠ []
      ∨ (check_strict_success body modal url extra_markers).url_ok = true := by
  simp only [check_strict_success, Bool.or_eq_true, Bool.not_eq_true',
    List.isEmpty_eq_false] at h ⊢
  exact h

/-- If the cycle loop decides, the outcome's status is one of the three, and
COMPLETE comes with a strict hit or URL match. -/
theorem runCycles_sound (t : Target) (extra_markers : List String) (cs : List CycleObs)
    (o : Outcome) (h : runCycles t extra_markers cs = some o) :
    (o.status = "BLOCKED" ∨ (o.status = "COMPLETE"
      ∧ (o.strict_hits ≠ [] ∨ o.url_match = true))) := by
  induction cs with
  | nil => simp [runCycles] at h
  | cons c rest ih =>
    unfold runCycles at h
    dsimp only at h
    by_cases hc : c.captcha = true
    · rw [if_pos hc] at h
      injection h with h
      subst h
      exact Or.inl rfl
    · rw [if_neg hc] at h
      by_cases hok : (check_strict_success c.obs.body c.obs.modal c.obs.url extra_markers).ok
          = true
      · rw [if_pos hok] at h
        injection h with h
        subst h
        exact Or.inr ⟨rfl, check_ok_requires_hit _ _ _ _ hok⟩
      · rw [if_neg hok] at h
        exact ih h

/-- C1: a worker never assigns status COMPLETE unless the deciding
confirmation check found at least one strict text-marker hit or a true
URL-match flag: COMPLETE implies the outcome carries a non-empty
`strict_hits` list or `url_match = True`. -/
theorem worker_complete_requires_marker (t : Target) (extra_markers : List String)
    (tr : FlowTrace) (h : (workerOutcome t extra_markers tr).status = "COMPLETE") :
    (workerOutcome t extra_markers tr).strict_hits ≠ []
      ∨ (workerOutcome t extra_markers tr).url_match = true := by
  unfold workerOutcome at h ⊢
  generalize hti : tr.interrupted = ti at h ⊢
  cases ti with
  | none =>
    dsimp only at h ⊢
    unfold flowOutcome at h ⊢
    by_cases hd : tr.dead = true
    · rw [if_pos hd] at h; simp [blockedOutcome] at h
    · rw [if_neg hd] at h ⊢
      by_cases hcs : (tr.captcha || tr.sms) = true
      · rw [if_pos hcs] at h; simp [blockedOutcome] at h
      · rw [if_neg hcs] at h ⊢
        by_cases hl : tr.login = true
        · rw [if_pos hl] at h; simp [blockedOutcome] at h
        · rw [if_neg hl] at h ⊢
          generalize hrun : runCycles t extra_markers tr.cycles = r at h ⊢
          cases r with
          | none =>
            dsimp only at h ⊢
            by_cases hok : (check_strict_success tr.finalObs.body tr.finalObs.modal
                tr.finalObs.url extra_markers).ok = true
            · rw [if_pos hok] at h ⊢
              exact check_ok_requires_hit _ _ _ _ hok
            · rw [if_neg hok] at h
              simp at h
          | some o =>
            dsimp only at h ⊢
            rcases runCycles_sound t extra_markers tr.cycles o hrun with hb | ⟨_, hc⟩
            · rw [hb] at h; simp at h
            · exact hc
  | some itr =>
    cases itr with
    | timeout obs =>
      dsimp only at h ⊢
      by_cases hok : (check_strict_success obs.body obs.modal obs.url extra_markers).ok = true
      · rw [if_pos hok] at h ⊢
        exact check_ok_requires_hit _ _ _ _ hok
      · rw [if_neg hok] at h
        simp at h
    | crashed msg obs =>
      dsimp only at h ⊢
      by_cases hok : (check_strict_success obs.body obs.modal obs.url extra_markers).ok = true
      · rw [if_pos hok] at h ⊢
        exact check_ok_requires_hit _ _ _ _ hok
      · rw [if_neg hok] at h
        simp at h

/-! ## Orchestrator (swarm.py 88-99, 1554-1604) -/

/-- `TARGETS`: the fixed target list. -/
def TARGETS : List Target := [
  ⟨"Curtin Maritime", "https://curtinmaritime.bamboohr.com/jobs"⟩,
  ⟨"Great Lakes Dredge & Dock", "https://gldd.com/careers/"⟩,
  ⟨"Weeks Marine", "https://kiewitcareers.kiewit.com/Weeks"⟩,
  ⟨"Manson Construction", "https://www.mansonconstruction.com/careers"⟩,
  ⟨"Callan Marine", "https://www.callanmarineltd.com/careers"⟩,
  ⟨"Cashman Dredging", "https://www.jaycashman.com/careers/"⟩,
  ⟨"Viking Dredging", "https://www.vikingdredging.com/join-our-team.php"⟩,
  ⟨"Muddy Water Dredging", "https://mwdredging.com/job-opportunities/"⟩,
  ⟨"Orion Government Services", "https://oriongov.com"⟩,
  ⟨"Moran Towing", "https://www.morantug.com/careers-at-moran/"⟩]

/-- The batching loop `for i in range(0, len(TARGETS), batch_size)` with the
slice `TARGETS[i : i + batch_size]`: successive chunks of `bs` targets. The
`0` case is unreachable from the program (`main` clamps `batch_size` to at
least 1, and Python's `range` rejects a zero step). -/
def chunks (bs : Nat) : List Target → List (List Target)
  | [] => []
  | x :: xs =>
    match bs with
    | 0 => []
    | b + 1 => (x :: xs).take (b + 1) :: chunks (b + 1) ((x :: xs).drop (b + 1))
termination_by l => l.length
decreasing_by simp [List.length_drop]; omega

/-- The aggregate report's summary block. -/
structure Summary where
  total : Nat
  complete : Nat
  blocked : Nat
  incomplete : Nat
  deriving Repr, DecidableEq

/-- The aggregate report (`payload` of `run_swarm`), restricted to results
and summary. -/
structure Report where
  results : List Outcome
  summary : Summary
  deriving Repr, DecidableEq

/-- `run_swarm` (swarm.py 1554-1604) restricted to result collection: the
targets are processed in sequential batches, each batch mapped through
`worker` (the function `trs` supplies each target's observations), results
are concatenated in order, and the summary counts COMPLETE and BLOCKED
results, computing `incomplete = total - complete - blocked`. -/
def run_swarm (extra_markers : List String) (bs : Nat) (trs : Target → FlowTrace) :
    Report :=
  let results := ((chunks bs TARGETS).map
    (fun batch => batch.map (fun t => workerOutcome t extra_markers (trs t)))).flatten
  let complete := (results.filter (fun r => r.status == "COMPLETE")).length
  let blocked := (results.filter (fun r => r.status == "BLOCKED")).length
  { results := results
    summary :=
      { total := results.length
        complete := complete
        blocked := blocked
        incomplete := results.length - complete - blocked } }

/-- Joining the batches gives back the target list (for a positive batch
size). -/
theorem chunks_flatten (b : Nat) (l : List Target) :
    (chunks (b + 1) l).flatten = l := by
  have key : ∀ (n : Nat) (l : List Target), l.length ≤ n → (chunks (b + 1) l).flatten = l := by
    intro n
    induction n with
    | zero =>
      intro l hl
      cases l with
      | nil => rw [chunks]; rfl
      | cons x xs => simp at hl
    | succ n ih =>
      intro l hl
      cases l with
      | nil => rw [chunks]; rfl
      | cons x xs =>
        rw [chunks]
        rw [List.flatten_cons]
        have hd : ((x :: xs).drop (b + 1)).length ≤ n := by
          rw [List.length_drop]
          simp only [List.length_cons] at hl ⊢
          omega
        rw [ih _ hd]
        exact List.take_append_drop (b + 1) (x :: xs)
  exact key l.length l le_rfl

/-- Every worker outcome's status is COMPLETE, BLOCKED or INCOMPLETE. -/
theorem workerOutcome_status_mem (t : Target) (extra_markers : List String)
    (tr : FlowTrace) :
    (workerOutcome t extra_markers tr).status = "COMPLETE"
      ∨ (workerOutcome t extra_markers tr).status = "BLOCKED"
      ∨ (workerOutcome t extra_markers tr).status = "INCOMPLETE" := by
  unfold workerOutcome
  generalize tr.interrupted = ti
  cases ti with
  | none =>
    dsimp only
    unfold flowOutcome
    by_cases hd : tr.dead = true
    · rw [if_pos hd]; exact Or.inr (Or.inl rfl)
    · rw [if_neg hd]
      by_cases hcs : (tr.captcha || tr.sms) = true
      · rw [if_pos hcs]; exact Or.inr (Or.inl rfl)
      · rw [if_neg hcs]
        by_cases hl : tr.login = true
        · rw [if_pos hl]; exact Or.inr (Or.inl rfl)
        · rw [if_neg hl]
          generalize hrun : runCycles t extra_markers tr.cycles = r
          cases r with
          | none =>
            dsimp only
            by_cases hok : (check_strict_success tr.finalObs.body tr.finalObs.modal
                tr.finalObs.url extra_markers).ok = true
            · rw [if_pos hok]; exact Or.inl rfl
            · rw [if_neg hok]; exact Or.inr (Or.inr rfl)
          | some o =>
            dsimp only
            rcases runCycles_sound t extra_markers tr.cycles o hrun with hb | ⟨hc, _⟩
            · exact Or.inr (Or.inl hb)
            · exact Or.inl hc
  | some itr =>
    cases itr with
    | timeout obs =>
      dsimp only
      by_cases hok : (check_strict_success obs.body obs.modal obs.url extra_markers).ok = true
      · rw [if_pos hok]; exact Or.inl rfl
      · rw [if_neg hok]; exact Or.inr (Or.inr rfl)
    | crashed msg obs =>
      dsimp only
      by_cases hok : (check_strict_success obs.body obs.modal obs.url extra_markers).ok = true
      · rw [if_pos hok]; exact Or.inl rfl
      · rw [if_neg hok]; exact Or.inr (Or.inr rfl)

/-- A cycle-loop outcome carries its target's company name. -/
theorem runCycles_company (t : Target) (extra_markers : List String) (cs : List CycleObs)
    (o : Outcome) (h : runCycles t extra_markers cs = some o) : o.company = t.company := by
  induction cs with
  | nil => simp [runCycles] at h
  | cons c rest ih =>
    unfold runCycles at h
    dsimp only at h
    by_cases hc : c.captcha = true
    · rw [if_pos hc] at h
      injection h with h
      subst h
      rfl
    · rw [if_neg hc] at h
      by_cases hok : (check_strict_success c.obs.body c.obs.modal c.obs.url extra_markers).ok
          = true
      · rw [if_pos hok] at h
        injection h with h
        subst h
        rfl
      · rw [if_neg hok] at h
        exact ih h

/-- A worker outcome carries its target's company name. -/
theorem workerOutcome_company (t : Target) (extra_markers : List String)
    (tr : FlowTrace) : (workerOutcome t extra_markers tr).company = t.company := by
  unfold workerOutcome
  generalize tr.interrupted = ti
  cases ti with
  | none =>
    dsimp only
    unfold flowOutcome
    by_cases hd : tr.dead = true
    · rw [if_pos hd]; rfl
    · rw [if_neg hd]
      by_cases hcs : (tr.captcha || tr.sms) = true
      · rw [if_pos hcs]; rfl
      · rw [if_neg hcs]
        by_cases hl : tr.login = true
        · rw [if_pos hl]; rfl
        · rw [if_neg hl]
          generalize hrun : runCycles t extra_markers tr.cycles = r
          cases r with
          | none =>
            dsimp only
            by_cases hok : (check_strict_success tr.finalObs.body tr.finalObs.modal
                tr.finalObs.url extra_markers).ok = true
            · rw [if_pos hok]; rfl
            · rw [if_neg hok]
          | some o =>
            dsimp only
            exact runCycles_company t extra_markers tr.cycles o hrun
  | some itr =>
    cases itr with
    | timeout obs =>
      dsimp only
      by_cases hok : (check_strict_success obs.body obs.modal obs.url extra_markers).ok = true
      · rw [if_pos hok]; rfl
      · rw [if_neg hok]
    | crashed msg obs =>
      dsimp only
      by_cases hok : (check_strict_success obs.body obs.modal obs.url extra_markers).ok = true
      · rw [if_pos hok]; rfl
      · rw [if_neg hok]

/-- C8: for every run over the fixed target list with a positive batch size,
exactly one outcome is produced per target (in target order), every status is
COMPLETE, BLOCKED or INCOMPLETE, the summary total equals the number of
targets, and the summary's incomplete count is total minus complete minus
blocked. -/
theorem run_swarm_one_outcome_per_target (extra_markers : List String) (bs : Nat)
    (trs : Target → FlowTrace) (hbs : 1 ≤ bs) :
    (run_swarm extra_markers bs trs).results.map Outcome.company = TARGETS.map Target.company
    ∧ (∀ r ∈ (run_swarm extra_markers bs trs).results,
        r.status = "COMPLETE" ∨ r.status = "BLOCKED" ∨ r.status = "INCOMPLETE")
    ∧ (run_swarm extra_markers bs trs).summary.total = TARGETS.length
    ∧ (run_swarm extra_markers bs trs).summary.incomplete
        = (run_swarm extra_markers bs trs).summary.total
          - (run_swarm extra_markers bs trs).summary.complete
          - (run_swarm extra_markers bs trs).summary.blocked := by
  obtain ⟨b, rfl⟩ : ∃ b, bs = b + 1 := ⟨bs - 1, by omega⟩
  have hres : (run_swarm extra_markers (b + 1) trs).results
      = TARGETS.map (fun t => workerOutcome t extra_markers (trs t)) := by
    show (((chunks (b + 1) TARGETS).map
      (fun batch => batch.map (fun t => workerOutcome t extra_markers (trs t)))).flatten) = _
    rw [← List.map_flatten, chunks_flatten]
  refine ⟨?_, ?_, ?_, rfl⟩
  · rw [hres]
    have key : ∀ (ts : List Target),
        (ts.map (fun t => workerOutcome t extra_markers (trs t))).map Outcome.company
          = ts.map Target.company := by
      intro ts
      induction ts with
      | nil => rfl
      | cons a as ih => simp only [List.map_cons, workerOutcome_company, ih]
    exact key TARGETS
  · intro r hr
    rw [hres] at hr
    rcases List.mem_map.1 hr with ⟨t, _, rfl⟩
    exact workerOutcome_status_mem t extra_markers (trs t)
  · show (run_swarm extra_markers (b + 1) trs).results.length = TARGETS.length
    rw [hres, List.length_map]

/-- C8 witness: batch size 3 and a trace that blocks every target on a dead
domain still yields one outcome per target and a summary totalling the ten
targets. -/
theorem run_swarm_one_outcome_per_target_witness :
    (run_swarm [] 3 (fun _ =>
        ⟨true, false, false, false, [], ⟨"", "", ""⟩, none⟩)).results.map Outcome.company
      = TARGETS.map Target.company
    ∧ (run_swarm [] 3 (fun _ =>
        ⟨true, false, false, false, [], ⟨"", "", ""⟩, none⟩)).summary.total
      = TARGETS.length :=
  ⟨(run_swarm_one_outcome_per_target [] 3 _ (by decide)).1,
   (run_swarm_one_outcome_per_target [] 3 _ (by decide)).2.2.1⟩

/-! ## In-page form filler (INJECT_HELPER_JS, swarm.py 142-307)

The DOM model: a page is a list of form controls (the
`document.querySelectorAll('input, textarea, select')` result), each carrying
the attributes, associated label texts and interactive state that `desc`,
`setVal` and `fillProfile` read. `closest('[aria-hidden="true"]')` is
modelled by the `underAriaHidden` flag, `closest('label')` /
`label[for=id]` / enclosing `fieldset legend` by the three optional label
texts. Setting a select's value also moves its `selectedIndex` to the first
option carrying that value, as the DOM does. -/

/-- One `<option>` of a select: its `value` and its text content. -/
structure SelOption where
  value : String
  text : String
  deriving Repr, DecidableEq

/-- One form control as the injected helper sees it. -/
structure Elem where
  tag : String
  name : Option String
  id : Option String
  placeholder : Option String
  ariaLabel : Option String
  dataLabel : Option String
  autocomplete : Option String
  labelText : Option String
  extLabelText : Option String
  legendText : Option String
  disabled : Bool
  readOnly : Bool
  tabIndex : Int
  underAriaHidden : Bool
  typeAttr : Option String
  value : String
  checked : Bool
  options : List SelOption
  selectedIndex : Int
  deriving Repr, DecidableEq

/-- JS `String(v || '')` over a nullable attribute. -/
def optStr : Option String → String
  | some s => s
  | none => ""

/-- The parts `desc` joins: the six attributes, then the enclosing label's
text, then (when the element has a non-empty id) the `label[for=id]` text,
then the enclosing fieldset's legend text. -/
def descParts (el : Elem) : List String :=
  [optStr el.name, optStr el.id, optStr el.placeholder,
    optStr el.ariaLabel, optStr el.dataLabel, optStr el.autocomplete]
  ++ (match el.labelText with | some t => [t] | none => [])
  ++ (if optStr el.id ≠ "" then
        (match el.extLabelText with | some t => [t] | none => [])
      else [])
  ++ (match el.legendText with | some t => [t] | none => [])

/-- `desc` (swarm.py 149-167): `norm(parts.join(' '))`. -/
def desc (el : Elem) : String := normStr (joinSpace (descParts el))

/-- `norm(el.getAttribute('type'))`. -/
def normType (el : Elem) : String := normStr (optStr el.typeAttr)

/-- The DOM's select-value assignment: `selectedIndex` becomes the first
option whose value equals the assigned value (or -1). -/
def selOptionIdx (opts : List SelOption) (v : String) : Int :=
  match opts.findIdx? (fun o => o.value == v) with
  | some n => Int.ofNat n
  | none => -1

/-- Assign a select's value, moving `selectedIndex` accordingly. -/
def selectSetValue (el : Elem) (v : String) : Elem :=
  { el with value := v, selectedIndex := selOptionIdx el.options v }

/-- `setVal` (swarm.py 169-206): early-return false on empty value, disabled
or read-only controls, tab index -1, aria-hidden ancestors, and hidden/file
types; selects are matched exact-then-substring in both directions over
option text and value; radio/checkbox return false; other controls take the
value (the native-setter and event dispatches have no further model
effect). -/
def setVal (el : Elem) (value : String) : Bool × Elem :=
  if value == "" then (false, el)
  else if el.disabled || el.readOnly then (false, el)
  else if el.tabIndex == -1 then (false, el)
  else if el.underAriaHidden then (false, el)
  else
    let tag := lowerStr el.tag
    let ty := normType el
    if ty == "hidden" || ty == "file" then (false, el)
    else if tag == "select" then
      let want := normStr value
      let opts := el.options
      let hit : Option SelOption :=
        match opts.find? (fun (o : SelOption) =>
            normStr o.text == want || normStr o.value == want) with
        | some h => some h
        | none =>
          match opts.find? (fun (o : SelOption) =>
              containsSub (normStr o.text) want || containsSub (normStr o.value) want) with
          | some h => some h
          | none => opts.find? (fun (o : SelOption) =>
              containsSub want (normStr o.text) || containsSub want (normStr o.value))
      match hit with
      | none => (false, el)
      | some h => (true, selectSetValue el h.value)
    else if ty == "radio" || ty == "checkbox" then (false, el)
    else (true, { el with value := value })

/-- The alias map of `fillProfile` (swarm.py 225-242). -/
def fieldAliasMap : List (String × List String) := [
  ("first_name", ["first name", "firstname", "given name", "fname", "first"]),
  ("last_name", ["last name", "lastname", "surname", "family name", "lname", "last"]),
  ("full_name", ["full name", "your name", "applicant name"]),
  ("email", ["email", "e-mail", "email address"]),
  ("phone", ["phone", "mobile", "telephone", "contact number", "phone number", "cell"]),
  ("address_line1", ["address", "street", "street address", "address line"]),
  ("city", ["city", "town"]),
  ("state", ["state", "province", "region"]),
  ("zip", ["zip", "postal", "zip code", "postal code"]),
  ("date_available",
    ["date available", "available date", "start date", "availability", "when can you start"]),
  ("desired_pay",
    ["desired pay", "salary", "pay", "compensation", "wage", "desired salary",
     "expected salary", "pay rate", "hourly rate"]),
  ("referred_by",
    ["who referred", "referred", "referral", "how did you hear", "source", "hear about"]),
  ("career_goals",
    ["what are you looking for", "career goal", "looking for in a career",
     "career interest", "career objective"]),
  ("work_environment",
    ["ideal work environment", "work environment", "describe your ideal",
     "work setting", "preferred environment"]),
  ("pitch",
    ["cover letter", "summary", "message", "why", "about you", "introduction",
     "comments", "additional comments", "comment", "notes", "tell us"]),
  ("sea_days_note",
    ["sea days", "offshore", "additional information", "experience", "qualifications"])]

/-- The inner loop of `fillProfile`'s main pass, for one profile entry and
one control: if some alias occurs in the control's descriptor, `setVal` it,
counting a success. -/
def entryStep (aliases : List String) (v : String) (el : Elem) : Nat × Elem :=
  if aliases.any (fun a => containsSub (desc el) (normStr a)) then
    let r := setVal el v
    ((if r.1 then 1 else 0), r.2)
  else (0, el)

/-- A per-element pass over the page: the JS loops touch each control
independently (each iteration reads and writes only its own element), so a
pass is the element-wise map together with the summed fill count. -/
def mapCount (f : Elem → Nat × Elem) : List Elem → Nat × List Elem
  | [] => (0, [])
  | el :: rest =>
    let r := f el
    let t := mapCount f rest
    (r.1 + t.1, r.2 :: t.2)

/-- `yesQuestions` of `fillProfile` (swarm.py 255). -/
def yesQuestions : List String :=
  ["are you able to work", "authorized to work", "legally authorized",
   "eligible to work", "willing to relocate", "18 years"]

/-- `noQuestions` of `fillProfile` (swarm.py 256). -/
def noQuestions : List String :=
  ["require sponsorship", "need visa", "been convicted"]

/-- The label element the radio pass reads:
`r.closest('label') || (r.id ? label[for=id] : null)`, with `''` when null. -/
def radioLabelText (el : Elem) : String :=
  match el.labelText with
  | some t => t
  | none => if optStr el.id ≠ "" then optStr el.extLabelText else ""

/-- Membership in `document.querySelectorAll("input[type='radio']")`. -/
def isRadioInput (el : Elem) : Bool :=
  lowerStr el.tag == "input" && lowerStr (optStr el.typeAttr) == "radio"

/-- The yes/no radio pass of `fillProfile` (swarm.py 254-268) on one radio:
the two sequential click blocks (a click sets `checked`; the control's value
is untouched) collapse to one checked assignment and their summed count. -/
def radioStep (el : Elem) : Nat × Elem :=
  if isRadioInput el then
    let q := desc el
    let rText := trimStr (lowerStr (radioLabelText el ++ " " ++ el.value))
    let yesHit := yesQuestions.any (fun yq => containsSub q yq)
      && (containsSub rText "yes" || lowerStr el.value == "yes")
    let noHit := noQuestions.any (fun nq => containsSub q nq)
      && (containsSub rText "no" || lowerStr el.value == "no")
    ((if yesHit then 1 else 0) + (if noHit then 1 else 0),
      if yesHit || noHit then { el with checked := true } else el)
  else (0, el)

/-- `stateValues` of the aggressive state-dropdown handler (swarm.py 271). -/
def STATE_VALUES : List String := ["Texas", "TX", "texas", "tx"]

/-- Whether a control's descriptor marks it as a state/province/region
select. -/
def stateDescMatch (el : Elem) : Bool :=
  let d := desc el
  containsSub d "state" || containsSub d "province" || containsSub d "region"

/-- The inner value loop of the state-dropdown handler: try each candidate in
order; a hit with a non-empty option value is taken, otherwise continue. -/
def tryStateValues : List String → List SelOption → Option SelOption
  | [], _ => none
  | v :: vs, opts =>
    match opts.find? (fun o =>
        normStr o.text == normStr v || normStr o.value == normStr v
          || containsSub (normStr o.text) (normStr v)) with
    | some h => if h.value ≠ "" then some h else tryStateValues vs opts
    | none => tryStateValues vs opts

/-- The aggressive state-dropdown handler (swarm.py 270-290) on one control:
for a select whose descriptor mentions state/province/region and that is not
already set (non-empty value with positive selected index), write the first
matching candidate value directly — with none of `setVal`'s guards. -/
def stateStep (el : Elem) : Nat × Elem :=
  if lowerStr el.tag == "select" then
    if !stateDescMatch el then (0, el)
    else if el.value ≠ "" ∧ el.selectedIndex > 0 then (0, el)
    else
      match tryStateValues STATE_VALUES el.options with
      | some h => (1, selectSetValue el h.value)
      | none => (0, el)
  else (0, el)

/-- The fold step of `fillProfile`'s main pass over the profile entries. -/
def entriesFoldStep (st : Nat × List Elem) (kv : String × String) : Nat × List Elem :=
  let aliases := (fieldAliasMap.lookup kv.1).getD [kv.1]
  let r := mapCount (entryStep aliases kv.2) st.2
  (st.1 + r.1, r.2)

/-- `fillProfile` (swarm.py 224-293): the alias-matching main pass over every
profile entry, then the yes/no radio pass, then the state-dropdown pass;
returns the fill count and the updated page. -/
def fillProfile (p : List (String × String)) (page : List Elem) : Nat × List Elem :=
  let st1 := p.foldl entriesFoldStep (0, page)
  let r2 := mapCount radioStep st1.2
  let r3 := mapCount stateStep r2.2
  (st1.1 + r2.1 + r3.1, r3.2)

/-- The skip conditions of the claim: disabled, read-only, honeypot tab
index as the code tests it (-1), aria-hidden ancestor, or hidden/file
type. -/
def skipCond (el : Elem) : Prop :=
  el.disabled = true ∨ el.readOnly = true ∨ el.tabIndex = -1
    ∨ el.underAriaHidden = true ∨ normType el = "hidden" ∨ normType el = "file"

/-- A control the state-dropdown pass leaves alone: not a select, or no
state-like descriptor, or already set (non-empty value, positive selected
index). -/
def safeFromStatePass (el : Elem) : Prop :=
  lowerStr el.tag ≠ "select" ∨ stateDescMatch el = false
    ∨ (el.value ≠ "" ∧ el.selectedIndex > 0)

/-- `setVal` declines every skipped control and leaves it unchanged. -/
theorem setVal_skip (el : Elem) (v : String) (h : skipCond el) :
    setVal el v = (false, el) := by
  unfold setVal
  by_cases h1 : (v == "") = true
  · rw [if_pos h1]
  · rw [if_neg h1]
    by_cases h2 : (el.disabled || el.readOnly) = true
    · rw [if_pos h2]
    · rw [if_neg h2]
      by_cases h3 : (el.tabIndex == -1) = true
      · rw [if_pos h3]
      · rw [if_neg h3]
        by_cases h4 : el.underAriaHidden = true
        · rw [if_pos h4]
        · rw [if_neg h4]
          dsimp only
          by_cases h5 : (normType el == "hidden" || normType el == "file") = true
          · rw [if_pos h5]
          · exfalso
            rcases h with h | h | h | h | h | h
            · simp [h] at h2
            · simp [h] at h2
            · simp [h] at h3
            · exact h4 h
            · simp [h] at h5
            · simp [h] at h5

/-- The main pass's per-entry step keeps every skipped control unchanged. -/
theorem entryStep_skip (aliases : List String) (v : String) (el : Elem)
    (h : skipCond el) : entryStep aliases v el = (0, el) := by
  unfold entryStep
  rw [setVal_skip el v h]
  by_cases hm : (aliases.any fun a => containsSub (desc el) (normStr a)) = true
  · rw [if_pos hm]
    rfl
  · rw [if_neg hm]

/-- A pass's page is the element-wise image. -/
theorem mapCount_snd (f : Elem → Nat × Elem) (l : List Elem) :
    (mapCount f l).2 = l.map (fun e => (f e).2) := by
  induction l with
  | nil => rfl
  | cons e rest ih => simp [mapCount, ih]

/-- Reading one position after a pass. -/
theorem mapCount_get (f : Elem → Nat × Elem) (l : List Elem) (i : Nat) :
    ((mapCount f l).2)[i]? = (l[i]?).map (fun e => (f e).2) := by
  rw [mapCount_snd, List.getElem?_map]

/-- The whole main pass keeps every skipped control unchanged at its
position. -/
theorem fillEntries_preserve (p : List (String × String)) (st : Nat × List Elem)
    (i : Nat) (el : Elem) (hel : st.2[i]? = some el) (h : skipCond el) :
    ((p.foldl entriesFoldStep st).2)[i]? = some el := by
  induction p generalizing st with
  | nil => exact hel
  | cons kv rest ih =>
    rw [List.foldl_cons]
    apply ih
    show ((mapCount (entryStep ((fieldAliasMap.lookup kv.1).getD [kv.1]) kv.2) st.2).2)[i]?
      = some el
    rw [mapCount_get, hel]
    simp [entryStep_skip _ _ _ h]

/-- The radio pass can only flip `checked`. -/
theorem radioStep_checked_only (el : Elem) :
    ∃ b, (radioStep el).2 = { el with checked := b } := by
  unfold radioStep
  by_cases hr : isRadioInput el = true
  · rw [if_pos hr]
    dsimp only
    split
    · exact ⟨true, rfl⟩
    · exact ⟨el.checked, rfl⟩
  · rw [if_neg hr]
    exact ⟨el.checked, rfl⟩

/-- The state pass leaves safe controls unchanged. -/
theorem stateStep_skip (el : Elem) (h : safeFromStatePass el) :
    stateStep el = (0, el) := by
  unfold stateStep
  rcases h with h | h | h
  · have hc : ¬((lowerStr el.tag == "select") = true) := by
      simp only [beq_iff_eq]
      exact h
    rw [if_neg hc]
  · by_cases htag : (lowerStr el.tag == "select") = true
    · rw [if_pos htag, if_pos (by simp [h])]
    · rw [if_neg htag]
  · by_cases htag : (lowerStr el.tag == "select") = true
    · rw [if_pos htag]
      by_cases hdm : (!stateDescMatch el) = true
      · rw [if_pos hdm]
      · rw [if_neg hdm, if_pos h]
    · rw [if_neg htag]

/-- The state pass also leaves such controls unchanged after the radio pass
flipped their `checked` flag. -/
theorem stateStep_skip_checked (el : Elem) (b : Bool) (h : safeFromStatePass el) :
    stateStep { el with checked := b } = (0, { el with checked := b }) := by
  apply stateStep_skip
  rcases h with h | h | h
  · exact Or.inl h
  · exact Or.inr (Or.inl h)
  · exact Or.inr (Or.inr h)

/-- C6 amended: a fill pass never changes the value of a control that is
disabled, read-only, of hidden or file type, honeypot-flagged by the tab
index the code tests (-1), or nested under an aria-hidden ancestor —
except through the state-dropdown fallback, which writes matching
state/province/region selects without those guards; controls outside that
fallback's reach keep their value. -/
theorem fill_preserves_skipped_controls (p : List (String × String)) (page : List Elem)
    (i : Nat) (el : Elem) (hel : page[i]? = some el) (hskip : skipCond el)
    (hstate : safeFromStatePass el) :
    (((fillProfile p page).2)[i]?).map Elem.value = some el.value := by
  unfold fillProfile
  dsimp only
  have h1 : ((p.foldl entriesFoldStep (0, page)).2)[i]? = some el :=
    fillEntries_preserve p (0, page) i el hel hskip
  rw [mapCount_get, mapCount_get, h1]
  obtain ⟨b, hb⟩ := radioStep_checked_only el
  simp only [Option.map_some']
  rw [hb, stateStep_skip_checked el b hstate]

/-- The concrete control of the C6 counterexample: a disabled state select,
pre-populated with the non-empty value "CA" at selected index 0. -/
def disabledStateSelect : Elem :=
  { tag := "select", name := some "state", id := none, placeholder := none,
    ariaLabel := none, dataLabel := none, autocomplete := none, labelText := none,
    extLabelText := none, legendText := none, disabled := true, readOnly := false,
    tabIndex := 0, underAriaHidden := false, typeAttr := none, value := "CA",
    checked := false, options := [⟨"CA", "California"⟩, ⟨"TX", "Texas"⟩],
    selectedIndex := 0 }

/-- C6 counterexample: a fill pass over a form holding one disabled select
whose descriptor is "state", pre-populated with the non-empty value "CA",
overwrites that value with "TX" through the state-dropdown fallback — a
disabled control's value does not survive a fill pass. -/
theorem fill_writes_disabled_state_select :
    skipCond disabledStateSelect
    ∧ disabledStateSelect.value = "CA"
    ∧ (((fillProfile [] [disabledStateSelect]).2)[0]?).map Elem.value = some "TX" := by
  refine ⟨Or.inl rfl, rfl, ?_⟩
  decide

/-- The concrete control of the C6 witness: a disabled, pre-populated email
input. -/
def disabledEmailInput : Elem :=
  { tag := "input", name := some "email", id := none, placeholder := none,
    ariaLabel := none, dataLabel := none, autocomplete := none, labelText := none,
    extLabelText := none, legendText := none, disabled := true, readOnly := false,
    tabIndex := 0, underAriaHidden := false, typeAttr := some "text", value := "keepme",
    checked := false, options := [], selectedIndex := -1 }

/-- C6 witness: a disabled text input whose descriptor matches the email
alias keeps its pre-populated value through a fill pass. -/
theorem fill_preserves_skipped_controls_witness :
    (((fillProfile [("email", "bot@example.com")] [disabledEmailInput]).2)[0]?).map Elem.value
      = some "keepme" :=
  fill_preserves_skipped_controls [("email", "bot@example.com")] [disabledEmailInput] 0
    disabledEmailInput rfl (Or.inl rfl) (Or.inl (by decide))

/-- C1 witness: a run whose final check sees "thank you for applying" ends
COMPLETE with a strict hit. -/
theorem worker_complete_requires_marker_witness :
    (workerOutcome ⟨"Acme", "https://acme.example"⟩ []
        ⟨false, false, false, false, [], ⟨"Thank you for applying!", "", "https://acme.example/done"⟩, none⟩).strict_hits ≠ []
      ∨ (workerOutcome ⟨"Acme", "https://acme.example"⟩ []
        ⟨false, false, false, false, [], ⟨"Thank you for applying!", "", "https://acme.example/done"⟩, none⟩).url_match = true :=
  worker_complete_requires_marker _ _ _ (by decide)
